import Mathlib

/-!
Verification of the hStream / resumable-HTTP specification against the
dnanexus/htslib sources.

The embedding covers:

* `CurlStream` and the C wrapper functions `curlstream_open`,
  `curlstream_read`, `curlstream_seek` (src/test/net/test_httpd.h,
  "C API" section), with libcurl's multi interface abstracted as a
  trace of transport events consumed by `perform` / `block`;
* the error-code mapping of `open_helper`;
* the HTTP backend capability record of src/hfile_net.c;
* the mock server's response-code selection (src/test/net/test_httpd.cc);
* the buffered hStream layer and the `mem:` backend, which are not among
  the given sources and are therefore modelled from the spec.
-/

namespace Hts

/-! ## errno and whence constants (Linux values, <errno.h> / <unistd.h>) -/

def EPERM : Int := 1
def ENOENT : Int := 2
def EIO : Int := 5
def EAGAIN : Int := 11
def EACCES : Int := 13
def EINVAL : Int := 22
def ESPIPE : Int := 29
def ETIMEDOUT : Int := 110

def SEEK_SET : Nat := 0
def SEEK_CUR : Nat := 1
def SEEK_END : Nat := 2

/-- `CURLE_OK`: the curl result code for a completed, untruncated transfer. -/
def CURLE_OK : Nat := 0

/-- `CURLE_PARTIAL_FILE` (18): transfer shorter than the announced size. -/
def CURLE_PARTIAL_FILE : Nat := 18

/-! ## Transport events

libcurl is an opaque transport.  One `curl_multi_perform` call is
modelled as consuming one event from a list:

* `mperformErr` — `curl_multi_perform` (or `curl_easy_getinfo`) fails;
* `progress code chunks done` — the call makes progress: `code` is the
  response code now reported by `CURLINFO_RESPONSE_CODE` (0 while no
  server response has been received), `chunks` are the body chunks the
  write callback delivered during the call, and `done = some r` when the
  transfer finished (`still_running == 0`) with curl result code `r`.

An exhausted event list models a transport that fails to make further
progress; `perform` and `block` then report failure. -/

inductive PEvent : Type
  | mperformErr : PEvent
  | progress (code : Int) (chunks : List (List Nat)) (done : Option Nat) : PEvent
deriving DecidableEq, Repr

/-! ## FifoBuffer (test_httpd.h, class FifoBuffer)

The response-body FIFO is a deque of strings; a chunk is a `List Nat`
of byte values. -/

/-- `FifoBuffer::write`: append a chunk to the deque, skipping empty ones. -/
def fifoWrite (q : List (List Nat)) (chunk : List Nat) : List (List Nat) :=
  if chunk.length > 0 then q ++ [chunk] else q

/-- Append several chunks in order (repeated write-callback invocations). -/
def fifoWriteAll (q : List (List Nat)) (chunks : List (List Nat)) : List (List Nat) :=
  chunks.foldl fifoWrite q

/-- `FifoBuffer::readsome`: pop the front chunk, hand out at most `n` of
its bytes, and push any remainder back to the front.  Returns the bytes
delivered together with the new deque. -/
def fifoReadsome (q : List (List Nat)) (n : Nat) : List Nat × List (List Nat) :=
  match q with
  | [] => ([], [])
  | front :: rest =>
    if n = 0 then ([], front :: rest)
    else
      let neff := min front.length n
      let taken := front.take neff
      let remainder := front.drop neff
      (taken, if remainder.length > 0 then remainder :: rest else rest)

/-! ## CurlStream state (test_httpd.h, class CurlStream) -/

structure CState : Type where
  /-- `h_ != nullptr` (easy handle allocated and added to the multi handle). -/
  hPresent : Bool
  /-- `m_ != nullptr` (multi handle allocated). -/
  mPresent : Bool
  /-- `response_code_`; 0 until a server response code has been received. -/
  responseCode : Int
  /-- `buf_`: the response-body FIFO. -/
  fifo : List (List Nat)
  /-- `final_msg_`: `some r` once the transfer finished with curl code `r`. -/
  finalMsg : Option Nat
  /-- `final_read_rc_`: initialised to 1; latched to the final status. -/
  finalReadRc : Int
  /-- the `range: bytes=<ofs>-` request header sent at open, if any. -/
  rangeStart : Option Int
  /-- remaining transport events for `perform`. -/
  pevents : List PEvent
  /-- remaining outcomes for `block` (`true` = the select call succeeds). -/
  bevents : List Bool
deriving DecidableEq, Repr

/-- A fresh `CurlStream` (the constructor), given the transport behaviour
the session is going to observe. -/
def initCState (pe : List PEvent) (be : List Bool) : CState :=
  { hPresent := false, mPresent := false, responseCode := 0, fifo := []
  , finalMsg := none, finalReadRc := 1, rangeStart := none
  , pevents := pe, bevents := be }

/-- `CurlStream::perform`: returns 0 on success, -1 on failure, with the
updated state.  If the transfer already finished it does nothing;
otherwise it consumes one transport event: `curl_multi_perform` runs the
transfer (delivering body chunks to the FIFO and possibly finishing it)
and `curl_easy_getinfo` refreshes the response code if none was known. -/
def performFn (s : CState) : Int × CState :=
  if s.finalMsg.isSome then (0, s)
  else
    match s.pevents with
    | [] => (-1, s)
    | PEvent.mperformErr :: rest => (-1, { s with pevents := rest })
    | PEvent.progress code chunks done :: rest =>
      (0, { s with
            pevents := rest
          , fifo := fifoWriteAll s.fifo chunks
          , responseCode := if s.responseCode = 0 then code else s.responseCode
          , finalMsg := done })

/-- `CurlStream::block`: bounded select; 0 on success, -1 on failure. -/
def blockFn (s : CState) : Int × CState :=
  match s.bevents with
  | [] => (-1, s)
  | b :: rest => (if b then 0 else -1, { s with bevents := rest })

/-- `CurlStream::final_status`: 0 if the transfer result was `CURLE_OK`,
otherwise -1.  Only meaningful once `finalMsg` is set. -/
def finalStatus (s : CState) : Int :=
  match s.finalMsg with
  | some r => if r = CURLE_OK then 0 else -1
  | none => -1

/-- The open loop `while (final_msg_ == nullptr && response_code_ == 0)
{ block; perform; }`.  Fuel bounds the iterations; each non-exiting
iteration consumes one transport event, so `pevents.length + 1` fuel is
always enough, and running out of fuel reports the same failure as an
exhausted event list. -/
def openLoop : Nat → CState → Int × CState
  | 0, s => (-1, s)
  | fuel + 1, s =>
    if s.finalMsg = none ∧ s.responseCode = 0 then
      if (blockFn s).1 ≠ 0 then blockFn s
      else if (performFn (blockFn s).2).1 ≠ 0 then performFn (blockFn s).2
      else openLoop fuel (performFn (blockFn s).2).2
    else (0, s)

/-- "run the request at least until we get the HTTP response code": the
initial `perform` of `CurlStream::open` followed by its block/perform
wait loop. -/
def openWait (s : CState) : Int × CState :=
  if (performFn s).1 ≠ 0 then performFn s
  else openLoop ((performFn s).2.pevents.length + 1) (performFn s).2

/-- The checks of `CurlStream::open` after the wait loop: a failed final
transfer status latches `final_read_rc_ = -1`; then the response-code
acceptance rules (2xx, and exactly 206 for an open at positive offset).
The unreachable `assert(response_code_ != 0)` is modelled as the
distinguished return value -99. -/
def openFinish (ofs : Int) (q : Int × CState) : Int × CState :=
  if q.1 ≠ 0 then q
  else if q.2.finalMsg.isSome ∧ finalStatus q.2 ≠ 0 then
    (finalStatus q.2, { q.2 with finalReadRc := -1 })
  else if q.2.responseCode = 0 then (-99, q.2)
  else if q.2.responseCode < 200 ∨ q.2.responseCode > 299 then (-4, q.2)
  else if 0 < ofs ∧ q.2.responseCode ≠ 206 then (-8, q.2)
  else (0, q.2)

/-- `CurlStream::open(url, ofs)`.  Returns the status together with the
state.  The allocation steps (`curl_global_init`, `curl_multi_init`,
`curl_easy_init`, `curl_multi_add_handle`, `curl_easy_setopt`) are
modelled as succeeding; their failure paths return fixed negative codes
independent of any HTTP response and are not claim-relevant.  A range
header `bytes=<ofs>-` is sent whenever `ofs` is nonzero (`if (ofs)`). -/
def curlOpen (ofs : Int) (s0 : CState) : Int × CState :=
  if s0.mPresent || s0.hPresent then (-2, s0)
  else
    openFinish ofs
      (openWait { s0 with
                  mPresent := true
                , hPresent := true
                , rangeStart := if ofs ≠ 0 then some ofs else none })

/-- The read wait loop `while (final_msg_ == nullptr && buf_.empty())
{ block; perform; }`, with fuel as in `openLoop`. -/
def readLoop : Nat → CState → Int × CState
  | 0, s => (-1, s)
  | fuel + 1, s =>
    if s.finalMsg = none ∧ s.fifo = [] then
      if (blockFn s).1 ≠ 0 then blockFn s
      else if (performFn (blockFn s).2).1 ≠ 0 then performFn (blockFn s).2
      else readLoop fuel (performFn (blockFn s).2).2
    else (0, s)

/-- The "perform until we've either buffered some data or finished
receiving the response" step of `CurlStream::read`: the initial
`perform` followed by its block/perform wait loop. -/
def readFill (s : CState) : Int × CState :=
  if (performFn s).1 ≠ 0 then performFn s
  else readLoop ((performFn s).2.pevents.length + 1) (performFn s).2

/-- Hand out FIFO bytes as the tail of `CurlStream::read` does: the
count (as returned status), the bytes, and the state. -/
def readDeliver (s : CState) (n : Nat) : Int × List Nat × CState :=
  (((fifoReadsome s.fifo n).1.length : Int), (fifoReadsome s.fifo n).1,
   { s with fifo := (fifoReadsome s.fifo n).2 })

/-- `CurlStream::read(buf, n)`.  Returns the status (byte count when
positive, 0 at clean end of body, negative on error), the bytes placed
in the caller's buffer, and the updated state. -/
def curlRead (s : CState) (n : Nat) : Int × List Nat × CState :=
  if s.finalReadRc ≤ 0 then (s.finalReadRc, [], s)
  else if ¬s.hPresent then (-2, [], s)
  else if s.responseCode < 200 ∨ s.responseCode > 299 then (-2, [], s)
  else if s.fifo = [] then
    if (readFill s).1 ≠ 0 then ((readFill s).1, [], (readFill s).2)
    else if (readFill s).2.fifo = [] then
      (finalStatus (readFill s).2, [],
       { (readFill s).2 with finalReadRc := finalStatus (readFill s).2 })
    else readDeliver (readFill s).2 n
  else readDeliver s n

/-! ## The C API (test_httpd.h, "C API" section)

`errno` is threaded explicitly: each wrapper takes the current errno
value and returns the value it leaves behind. -/

/-- `struct CurlStreamBox` (the url string plays no role in the model). -/
structure Box : Type where
  ofs : Int
  stm : Option CState
deriving DecidableEq, Repr

/-- The `switch (ret)` in `open_helper` mapping the HTTP response code of
a failed open to an errno value. -/
def open_errno (ret : Int) : Int :=
  if ret = 401 then EPERM
  else if ret = 403 then EACCES
  else if ret = 404 then ENOENT
  else if ret = 407 then EPERM
  else if ret = 408 then ETIMEDOUT
  else if ret = 410 then ENOENT
  else if ret = 503 then EAGAIN
  else if ret = 504 then ETIMEDOUT
  else if 400 ≤ ret ∧ ret < 500 then EINVAL
  else EIO

/-- `open_helper(CURLSTREAM s)`: discard any previous stream, make a
fresh `CurlStream` (observing transport events `pe` / `be`) and open it
at `s->ofs`.  On failure the stream is destroyed and errno is set from
the response code.  Returns (status, box, errno). -/
def open_helper (b : Box) (pe : List PEvent) (be : List Bool) (errno : Int) :
    Int × Box × Int :=
  let r := curlOpen b.ofs (initCState pe be)
  if r.1 = 0 then (0, { b with stm := some r.2 }, errno)
  else (r.1, { b with stm := none }, open_errno r.2.responseCode)

/-- `curlstream_open(url, ofs, s)`: allocate a box and open it.
Returns (status, the box on success, errno). -/
def curlstream_open (ofs : Int) (pe : List PEvent) (be : List Bool) (errno : Int) :
    Int × Option Box × Int :=
  let b : Box := { ofs := ofs, stm := none }
  let r := open_helper b pe be errno
  if r.1 ≠ 0 then (r.1, none, r.2.2) else (0, some r.2.1, r.2.2)

/-- `curlstream_read(s, buf, n)`: if there is no live stream (after a
seek, or a previously failed reopen) first reopen at `s->ofs`, using
transport events `pe` / `be` for the new session; on reopen failure
return its status with errno as `open_helper` set it.  Then read from
the live stream; any nonzero status from `CurlStream::read` - including
a positive byte count - overwrites errno with EIO.
Returns (status, bytes delivered, box, errno). -/
def curlstream_read (b : Box) (n : Nat) (pe : List PEvent) (be : List Bool)
    (errno : Int) : Int × List Nat × Box × Int :=
  match b.stm with
  | none =>
    let r := open_helper b pe be errno
    if r.1 ≠ 0 then (r.1, [], r.2.1, r.2.2)
    else
      match r.2.1.stm with
      | none => (-1, [], r.2.1, r.2.2)
      | some s =>
        let c := curlRead s n
        (c.1, c.2.1, { r.2.1 with stm := some c.2.2 },
         if c.1 ≠ 0 then EIO else r.2.2)
  | some s =>
    let c := curlRead s n
    (c.1, c.2.1, { b with stm := some c.2.2 }, if c.1 ≠ 0 then EIO else errno)

/-- `curlstream_seek(s, ofs, whence)`: SEEK_SET / SEEK_CUR record the new
logical offset, destroy the live stream (the next read reopens there)
and return the new offset; SEEK_END fails with `ESPIPE` leaving the box
untouched; any other whence fails without touching errno.
Returns (result, box, errno). -/
def curlstream_seek (b : Box) (ofs : Int) (whence : Nat) (errno : Int) :
    Int × Box × Int :=
  if whence = SEEK_SET then
    ({ b with ofs := ofs }.ofs, { b with ofs := ofs, stm := none }, errno)
  else if whence = SEEK_CUR then
    (b.ofs + ofs, { b with ofs := b.ofs + ofs, stm := none }, errno)
  else if whence = SEEK_END then
    (-1, b, ESPIPE)
  else
    (-1, b, errno)

/-- The read-until-EOF loop of a caller (`hfile_dropall` in
http_tests.cc): keep calling `curlstream_read` with request size `n`
while it returns bytes; stop at 0 (EOF) or a negative status.  Returns
(all bytes delivered, final status, box, errno).  `pe`/`be` are the
transport events any reopened session would observe; fuel bounds the
iterations. -/
def drainRead (n : Nat) (pe : List PEvent) (be : List Bool) :
    Nat → Box → Int → List Nat × Int × Box × Int
  | 0, b, e => ([], -1, b, e)
  | fuel + 1, b, e =>
    let r := curlstream_read b n pe be e
    if r.1 > 0 then
      let rest := drainRead n pe be fuel r.2.2.1 r.2.2.2
      (r.2.1 ++ rest.1, rest.2.1, rest.2.2.1, rest.2.2.2)
    else ([], r.1, r.2.2.1, r.2.2.2)

/-! ## Mock server response-code selection (test_httpd.cc, OnRequest)

For a GET of an existing file of `size` bytes: with a `range: bytes=lo-`
header the server answers 206 when `lo < size` and 416 otherwise; with
no range header it answers 200.  A response body is truncated to
`trunc` bytes when truncation is armed. -/

def serverCode (range : Option Nat) (size : Nat) : Int :=
  match range with
  | some lo => if lo < size then 206 else 416
  | none => 200

/-- Body bytes the server hands the transport for a ranged request,
`min(truncate_response_, hi-lo+1)` of the requested suffix. -/
def serverBody (file : List Nat) (lo : Nat) (trunc : Option Nat) : List Nat :=
  let full := file.drop lo
  match trunc with
  | some t => full.take t
  | none => full

/-- The curl result code the client observes for a response announcing
`expected` bytes of which `actual` were delivered: `CURLE_PARTIAL_FILE`
on a short body, else `CURLE_OK`. -/
def transferResult (expected actual : Nat) : Nat :=
  if actual < expected then CURLE_PARTIAL_FILE else CURLE_OK

/-- The transport-event trace of one mock-server session for `file`
starting at offset `lo` with truncation `trunc`: the response code
arrives first (headers), then the (possibly truncated) body in a single
chunk together with the transfer's final result. -/
def serverTrace (file : List Nat) (lo : Nat) (trunc : Option Nat) : List PEvent :=
  let code := serverCode (if lo ≠ 0 then some lo else none) file.length
  let body := serverBody file lo trunc
  if 200 ≤ code ∧ code ≤ 299 then
    [ PEvent.progress code [] none
    , PEvent.progress code [body] (some (transferResult (file.length - lo) body.length)) ]
  else
    [ PEvent.progress code [] (some CURLE_OK) ]

/-! ## HTTP backend capability record (src/hfile_net.c) -/

/-- `struct hFILE_backend`: the capability bundle.  `close` is mandatory;
the others may be absent. -/
structure HFILEBackend (σ : Type) : Type where
  read : Option (σ → Nat → Int × List Nat × σ)
  write : Option (σ → List Nat → Int × σ)
  seek : Option (σ → Int → Nat → Int × σ)
  flush : Option (σ → Int × σ)
  close : σ → Int

/-- The state a `hFILE_net` carries: the box, errno, and the transport
events any reopened session would observe. -/
structure NetState : Type where
  box : Box
  errno : Int
  pe : List PEvent
  be : List Bool

/-- `net_read`: delegates to `curlstream_read`. -/
def net_read (st : NetState) (n : Nat) : Int × List Nat × NetState :=
  let r := curlstream_read st.box n st.pe st.be st.errno
  (r.1, r.2.1, { st with box := r.2.2.1, errno := r.2.2.2 })

/-- `net_seek`: delegates to `curlstream_seek`. -/
def net_seek (st : NetState) (ofs : Int) (whence : Nat) : Int × NetState :=
  let r := curlstream_seek st.box ofs whence st.errno
  (r.1, { st with box := r.2.1, errno := r.2.2 })

/-- `net_close`: calls `curlstream_close` (which only frees resources)
and always returns 0. -/
def net_close (_ : NetState) : Int := 0

/-- `net_backend`: `{ net_read, NULL, net_seek, NULL, net_close }`. -/
def net_backend : HFILEBackend NetState :=
  { read := some net_read
  , write := none
  , seek := some net_seek
  , flush := none
  , close := net_close }

/-! ## Buffered hStream layer, read side

Modelled from the spec: hfile.c (the buffered layer) is not among the
given sources, only its tests (test/hfile.c) and callers are.  Per spec
3 and 4.1 a read stream keeps a buffered window `[begin, end)` whose
bytes are "the next bytes the caller will see", an absolute offset, and
refills the window from the backend; `hread` keeps consuming (refilling
on a miss) until the request or the stream is exhausted, `hpeek` buffers
up to `min n capacity` bytes without advancing the logical offset, and
`htell` reports the caller's logical offset. -/

structure HRead : Type where
  /-- bytes currently in the buffered window `[begin, end)`. -/
  buf : List Nat
  /-- bytes the backend has yet to deliver (beyond the window). -/
  src : List Nat
  /-- the caller's logical offset (`htell`). -/
  pos : Nat
  /-- buffer capacity. -/
  cap : Nat
deriving DecidableEq, Repr

/-- Open a read stream on content `f` (window empty, offset 0). -/
def hopenRead (f : List Nat) (cap : Nat) : HRead :=
  { buf := [], src := f, pos := 0, cap := cap }

/-- The bytes a reader has yet to see: window first, then backend. -/
def content (f : HRead) : List Nat := f.buf ++ f.src

/-- `htell`. -/
def htell (f : HRead) : Nat := f.pos

/-- `hread(f, dst, n)`: delivers `min n remaining` bytes (consuming the
window, refilling from the backend as needed) and advances the logical
offset by the amount delivered; returns 0 bytes only at end of stream. -/
def hread (f : HRead) (n : Nat) : List Nat × HRead :=
  let out := (content f).take n
  (out, { f with buf := [], src := (content f).drop n, pos := f.pos + out.length })

/-- `hpeek(f, dst, n)`: returns up to `min n capacity` bytes, buffering
them in the window (sliding it to the front and issuing backend reads as
needed) without advancing the logical offset. -/
def hpeek (f : HRead) (n : Nat) : List Nat × HRead :=
  let k := min (min n f.cap) (content f).length
  let w := max f.buf.length k
  (( content f).take k,
   { f with buf := (content f).take w, src := (content f).drop w })

/-- `hgetc`: read one byte; `none` is EOF. -/
def hgetc (f : HRead) : Option Nat × HRead :=
  match hread f 1 with
  | ([], f') => (none, f')
  | (b :: _, f') => (some b, f')

/-- Issue a sequence of `hread` calls with the given sizes and
concatenate everything they deliver. -/
def hreadMany (f : HRead) (ns : List Nat) : List Nat × HRead :=
  match ns with
  | [] => ([], f)
  | n :: rest =>
    let r := hread f n
    let rs := hreadMany r.2 rest
    (r.1 ++ rs.1, rs.2)

/-- The stream state after a sequence of `hpeek` calls of the given
sizes (each result discarded). -/
def hpeekSeq (f : HRead) (ms : List Nat) : HRead :=
  ms.foldl (fun g m => (hpeek g m).2) f

/-- Issue `n` `hgetc` calls, collecting the results. -/
def hgetcMany (f : HRead) (n : Nat) : List (Option Nat) × HRead :=
  match n with
  | 0 => ([], f)
  | n + 1 =>
    let c := hgetc f
    let cs := hgetcMany c.2 n
    (c.1 :: cs.1, cs.2)

/-! ## Buffered hStream layer, write side and mem: backend

Modelled from the spec: the write side of hfile.c and the `mem:` backend
are not among the given sources.  Per spec 4.1/4.3 writes are staged in
the stream buffer and drained to the backend on flush/close; the `mem:`
backend appends to the caller's buffer `*pmbuffer`, reallocating with
doubling growth so that `*pmlength` holds the allocated capacity while
writing, and on close sets `*pmlength` to the final written size. -/

/-- A buffered write stream: bytes staged in the stream buffer
(`pending`, the `[begin, end)` window in write mode) and bytes already
delivered to the backend (`dest`). -/
structure HWrite : Type where
  pending : List Nat
  dest : List Nat
  cap : Nat
deriving DecidableEq, Repr

/-- Open a write stream. -/
def hopenWrite (cap : Nat) : HWrite := { pending := [], dest := [], cap := cap }

/-- `hputc`: stage one byte; a backend write drains the buffer when it
fills. -/
def hputcW (f : HWrite) (b : Nat) : HWrite :=
  if f.pending.length + 1 ≥ f.cap then
    { f with pending := [], dest := f.dest ++ f.pending ++ [b] }
  else { f with pending := f.pending ++ [b] }

/-- `hputc` each byte of `bs` in order. -/
def hputcAllW (f : HWrite) (bs : List Nat) : HWrite := bs.foldl hputcW f

/-- `hclose` of a write stream: drain the buffer; the backend has then
received every written byte, in order. -/
def hcloseW (f : HWrite) : List Nat := f.dest ++ f.pending

structure MemFile : Type where
  /-- bytes written so far (the meaningful prefix of `*pmbuffer`). -/
  data : List Nat
  /-- allocated capacity of `*pmbuffer`; `*pmlength` while writing. -/
  cap : Nat
deriving DecidableEq, Repr

/-- A fresh `mem:` write stream (no allocation yet). -/
def memInit : MemFile := { data := [], cap := 0 }

/-- Grow the allocation by doubling (at least) until `need` fits. -/
def memGrow (cap need : Nat) : Nat :=
  if need ≤ cap then cap else max need (2 * cap)

/-- A backend write of `bytes`, reallocating as needed. -/
def memWrite (m : MemFile) (bytes : List Nat) : MemFile :=
  { data := m.data ++ bytes, cap := memGrow m.cap (m.data.length + bytes.length) }

/-- A sequence of backend writes. -/
def memWriteAll (m : MemFile) (ws : List (List Nat)) : MemFile :=
  ws.foldl memWrite m

/-- `*pmbuffer` as seen by the caller: the written bytes followed by the
uninitialised remainder of the allocation (modelled as zeros). -/
def memBuffer (m : MemFile) : List Nat :=
  m.data ++ List.replicate (m.cap - m.data.length) 0

/-- Closing the stream: the caller keeps `*pmbuffer`, and `*pmlength` is
set to the final written size. -/
def memClose (m : MemFile) : List Nat × Nat :=
  (memBuffer m, m.data.length)

/-- hwrite through a backend capability record: fails as unsupported
(per the spec's capability-absence policy) when the backend has no
`write` entry.  Modelled from the spec (hfile.c is not in src). -/
def hwriteCap (be : HFILEBackend σ) (st : σ) (bytes : List Nat) : Int × σ :=
  match be.write with
  | none => (-1, st)
  | some w => w st bytes

/-- hflush through a backend capability record: fails as unsupported
when the backend has no `flush` entry.  Modelled from the spec. -/
def hflushCap (be : HFILEBackend σ) (st : σ) : Int × σ :=
  match be.flush with
  | none => (-1, st)
  | some fl => fl st

/-- hclose through a backend capability record: drains pending writes
(the buffered layer's own step, whose outcome is `bufErr`: 0 when the
drain succeeded) and then calls the mandatory backend `close`; it fails
if either failed.  Modelled from the spec. -/
def hcloseCap (be : HFILEBackend σ) (st : σ) (bufErr : Int) : Int :=
  if bufErr ≠ 0 ∨ be.close st ≠ 0 then -1 else 0

/-! ## Helper lemmas -/

lemma performFn_rangeStart (s : CState) : (performFn s).2.rangeStart = s.rangeStart := by
  unfold performFn
  split
  · rfl
  · split <;> rfl

lemma blockFn_rangeStart (s : CState) : (blockFn s).2.rangeStart = s.rangeStart := by
  unfold blockFn
  split <;> rfl

lemma openLoop_rangeStart :
    ∀ (fuel : Nat) (s : CState), (openLoop fuel s).2.rangeStart = s.rangeStart := by
  intro fuel
  induction fuel with
  | zero => intro s; rfl
  | succ m ih =>
    intro s
    unfold openLoop
    split
    · split
      · exact blockFn_rangeStart s
      · split
        · rw [performFn_rangeStart, blockFn_rangeStart]
        · rw [ih, performFn_rangeStart, blockFn_rangeStart]
    · rfl

lemma openWait_rangeStart (s : CState) : (openWait s).2.rangeStart = s.rangeStart := by
  unfold openWait
  split
  · exact performFn_rangeStart s
  · rw [openLoop_rangeStart, performFn_rangeStart]

/-- `openFinish` returns 0 exactly by falling through every rejection:
the state is passed through, the response code is 2xx, and 206 if the
open was at a positive offset. -/
lemma openFinish_success_spec (ofs : Int) (q : Int × CState)
    (h : (openFinish ofs q).1 = 0) :
    (openFinish ofs q).2 = q.2 ∧ 200 ≤ q.2.responseCode ∧
    q.2.responseCode ≤ 299 ∧ (0 < ofs → q.2.responseCode = 206) := by
  unfold openFinish at h ⊢
  split_ifs at h ⊢ with h1 h2 h3 h4 h5
  · exact absurd h h1
  · exact absurd h h2.2
  · exact absurd h (by norm_num)
  · exact absurd h (by norm_num)
  · exact absurd h (by norm_num)
  · push_neg at h4
    refine ⟨rfl, h4.1, h4.2, fun hofs => ?_⟩
    by_contra hne
    exact h5 ⟨hofs, hne⟩

/-- On a successful `CurlStream::open`, the final state carries a 2xx
response code, 206 if the open was at a positive offset, and the range
header recorded at open time. -/
lemma curlOpen_success_spec (ofs : Int) (s0 : CState)
    (h : (curlOpen ofs s0).1 = 0) :
    200 ≤ (curlOpen ofs s0).2.responseCode ∧
    (curlOpen ofs s0).2.responseCode ≤ 299 ∧
    (0 < ofs → (curlOpen ofs s0).2.responseCode = 206) ∧
    (curlOpen ofs s0).2.rangeStart = (if ofs ≠ 0 then some ofs else none) := by
  unfold curlOpen at h ⊢
  by_cases h1 : (s0.mPresent || s0.hPresent) = true
  · rw [if_pos h1] at h
    exact absurd h (by norm_num)
  · rw [if_neg h1] at h ⊢
    obtain ⟨he, hlo, hhi, h206⟩ := openFinish_success_spec _ _ h
    rw [he, openWait_rangeStart]
    exact ⟨hlo, hhi, h206, rfl⟩

/-- A successful `open_helper` installs exactly the state a successful
`CurlStream::open` at `b.ofs` produced. -/
lemma open_helper_success (b : Box) (pe : List PEvent) (be : List Bool) (e : Int)
    (h : (open_helper b pe be e).1 = 0) :
    (open_helper b pe be e).2.1.stm = some (curlOpen b.ofs (initCState pe be)).2 ∧
    (open_helper b pe be e).2.1.ofs = b.ofs ∧
    (open_helper b pe be e).2.2 = e ∧
    (curlOpen b.ofs (initCState pe be)).1 = 0 := by
  simp only [open_helper] at h ⊢
  split_ifs at h ⊢ with h1
  · exact ⟨rfl, rfl, rfl, h1⟩
  · exact absurd h h1

lemma hread_bytes (f : HRead) (n : Nat) : (hread f n).1 = (content f).take n := rfl

lemma content_hread (f : HRead) (n : Nat) :
    content (hread f n).2 = (content f).drop n := rfl

lemma htell_hpeek (f : HRead) (n : Nat) : htell (hpeek f n).2 = htell f := rfl

lemma content_hpeek (f : HRead) (n : Nat) : content (hpeek f n).2 = content f := by
  simp [hpeek, content]

lemma hpeek_bytes (f : HRead) (n : Nat) :
    (hpeek f n).1 = (content f).take (min (min n f.cap) (content f).length) := rfl

lemma hpeek_bytes_length (f : HRead) (n : Nat) :
    (hpeek f n).1.length = min (min n f.cap) (content f).length := by
  rw [hpeek_bytes, List.length_take]
  exact min_eq_left (min_le_right _ _)

/-- The concatenation of a sequence of `hread` results is an initial
segment of the stream content, of length the total requested (capped by
the content). -/
lemma hreadMany_bytes (ns : List Nat) :
    ∀ f : HRead, (hreadMany f ns).1 = (content f).take ns.sum := by
  induction ns with
  | nil => intro f; simp [hreadMany]
  | cons n rest ih =>
    intro f
    simp only [hreadMany, ih, content_hread, hread_bytes, List.sum_cons]
    exact (List.take_add _ n rest.sum).symm

lemma htell_hpeekSeq (ms : List Nat) :
    ∀ f : HRead, htell (hpeekSeq f ms) = htell f := by
  induction ms with
  | nil => intro f; rfl
  | cons m rest ih => intro f; rw [hpeekSeq, List.foldl_cons, ← hpeekSeq, ih, htell_hpeek]

lemma memWriteAll_data (ws : List (List Nat)) :
    ∀ m : MemFile, (memWriteAll m ws).data = m.data ++ ws.flatten := by
  induction ws with
  | nil => intro m; simp [memWriteAll]
  | cons w rest ih =>
    intro m
    simp [memWriteAll, List.foldl_cons, memWrite] at ih ⊢
    rw [ih]
    simp [memWrite]

lemma memGrow_ge (cap need : Nat) : need ≤ memGrow cap need := by
  unfold memGrow
  split_ifs
  · assumption
  · exact le_max_left _ _

lemma memWriteAll_cap_ge (ws : List (List Nat)) :
    ∀ m : MemFile, m.data.length ≤ m.cap →
      (memWriteAll m ws).data.length ≤ (memWriteAll m ws).cap := by
  induction ws with
  | nil => intro m h; exact h
  | cons w rest ih =>
    intro m h
    refine ih _ ?_
    simp only [memWrite, List.length_append]
    exact memGrow_ge _ _

end Hts

namespace Hts

/-! ## Claim theorems -/

/-- C2: `curlstream_open` succeeds only once an HTTP response code in
200-299 has been received (hence every non-2xx response makes it
fail), the code must be exactly 206 whenever `ofs > 0` (any other code,
other 2xx included, fails), and at `ofs = 0` any 2xx code is accepted
(shown for a clean header arrival of an arbitrary 2xx code). -/
theorem C2_open_requires_2xx :
    (∀ (ofs : Int) (pe : List PEvent) (be : List Bool) (e : Int),
      (curlstream_open ofs pe be e).1 = 0 →
      ∃ bx s, (curlstream_open ofs pe be e).2.1 = some bx ∧ bx.stm = some s ∧
        200 ≤ s.responseCode ∧ s.responseCode ≤ 299 ∧
        (0 < ofs → s.responseCode = 206)) ∧
    (∀ code : Int, 200 ≤ code → code ≤ 299 →
      (curlstream_open 0 [PEvent.progress code [] none] [] 0).1 = 0) := by
  constructor
  · intro ofs pe be e h
    simp only [curlstream_open] at h ⊢
    by_cases h1 : (open_helper { ofs := ofs, stm := none } pe be e).1 ≠ 0
    · rw [if_pos h1] at h
      exact absurd h h1
    · push_neg at h1
      rw [if_neg (by simp [h1])]
      obtain ⟨hstm, _, _, hopen⟩ := open_helper_success _ pe be e h1
      obtain ⟨hlo, hhi, h206, _⟩ := curlOpen_success_spec _ _ hopen
      exact ⟨_, _, rfl, hstm, hlo, hhi, h206⟩
  · intro code h1 h2
    have hc0 : ¬(code = 0) := by omega
    have hrange : ¬(code < 200 ∨ code > 299) := by omega
    simp [curlstream_open, open_helper, curlOpen, openWait, openLoop, openFinish,
          performFn, initCState, fifoWriteAll, finalStatus, hc0, hrange]

/-- Witness for C2 at concrete inputs: an open at offset 0 answered 200
succeeds and yields a 200 session, and an open answered 204 succeeds. -/
theorem C2_open_requires_2xx_witness :
    (∃ bx s,
      (curlstream_open 0 [PEvent.progress 200 [] none] [] 0).2.1 = some bx ∧
      bx.stm = some s ∧ 200 ≤ s.responseCode ∧ s.responseCode ≤ 299 ∧
      (0 < (0 : Int) → s.responseCode = 206)) ∧
    (curlstream_open 0 [PEvent.progress 204 [] none] [] 0).1 = 0 :=
  ⟨C2_open_requires_2xx.1 0 [PEvent.progress 200 [] none] [] 0 (by decide),
   C2_open_requires_2xx.2 204 (by decide) (by decide)⟩

/-- C3: seeking with SEEK_SET or SEEK_CUR destroys the current session,
records the new logical offset and returns it, and the next read's
reopen (`open_helper`, which `curlstream_read` invokes when no session
is live) opens the new session at that offset, sending a
`Range: bytes=ofs-` header exactly when the offset is nonzero; SEEK_END
always fails returning -1 with errno ESPIPE, leaving the recorded
offset and the session untouched. -/
theorem C3_seek_semantics (b : Box) (ofs e : Int) :
    curlstream_seek b ofs SEEK_SET e = (ofs, { b with ofs := ofs, stm := none }, e) ∧
    curlstream_seek b ofs SEEK_CUR e =
      (b.ofs + ofs, { b with ofs := b.ofs + ofs, stm := none }, e) ∧
    curlstream_seek b ofs SEEK_END e = (-1, b, ESPIPE) ∧
    (∀ (pe : List PEvent) (be : List Bool) (e0 : Int),
      (open_helper { b with ofs := ofs, stm := none } pe be e0).1 = 0 →
      ∃ s, (open_helper { b with ofs := ofs, stm := none } pe be e0).2.1.stm = some s ∧
        s.rangeStart = (if ofs ≠ 0 then some ofs else none)) := by
  refine ⟨by simp [curlstream_seek, SEEK_SET, SEEK_CUR],
          by simp [curlstream_seek, SEEK_SET, SEEK_CUR],
          by simp [curlstream_seek, SEEK_SET, SEEK_CUR, SEEK_END],
          fun pe be e0 h => ?_⟩
  obtain ⟨hstm, _, _, hopen⟩ := open_helper_success _ pe be e0 h
  obtain ⟨_, _, _, hrange⟩ := curlOpen_success_spec _ _ hopen
  exact ⟨_, hstm, hrange⟩

/-- Witness for C3 at concrete inputs: a SEEK_SET to offset 7 on an idle
box, followed by a successful reopen answered 206, produces a session
with `Range: bytes=7-`. -/
theorem C3_seek_semantics_witness :
    curlstream_seek { ofs := 5, stm := none } 7 SEEK_SET 0 =
      (7, { ofs := 7, stm := none }, 0) ∧
    ∃ s, (open_helper { ofs := 7, stm := none }
            [PEvent.progress 206 [] none] [] 0).2.1.stm = some s ∧
      s.rangeStart = (if (7 : Int) ≠ 0 then some 7 else none) :=
  ⟨(C3_seek_semantics { ofs := 5, stm := none } 7 0).1,
   (C3_seek_semantics { ofs := 5, stm := none } 7 0).2.2.2
     [PEvent.progress 206 [] none] [] 0 (by decide)⟩

/-- C10: the HTTP backend capability record has null `write` and `flush`
entries and `net_close` always returns 0; hence hwrite and hflush on an
HTTP stream fail as unsupported, and hclose of an HTTP stream fails
exactly when the buffered layer's own drain failed, never from closing
the transport. -/
theorem C10_net_backend_caps :
    net_backend.write = none ∧ net_backend.flush = none ∧
    (∀ st : NetState, net_backend.close st = 0) ∧
    (∀ (st : NetState) (bytes : List Nat), hwriteCap net_backend st bytes = (-1, st)) ∧
    (∀ st : NetState, hflushCap net_backend st = (-1, st)) ∧
    (∀ (st : NetState) (bufErr : Int), hcloseCap net_backend st bufErr = 0 ↔ bufErr = 0) := by
  refine ⟨rfl, rfl, fun st => rfl, fun st bytes => rfl, fun st => rfl,
          fun st bufErr => ?_⟩
  by_cases hb : bufErr = 0 <;> simp [hcloseCap, net_backend, net_close, hb]

/-- C5: `htell` returns the identical value immediately before and after
each `hpeek` (and across any sequence of `hpeek` calls), and the bytes
returned by one `hpeek` are a prefix of the bytes subsequently returned
by `hread` calls (any sequence of sizes requesting at least that many
bytes returns them first, in order). -/
theorem C5_peek_idempotent (f : HRead) (n : Nat) (ms ns : List Nat)
    (h : (hpeek f n).1.length ≤ ns.sum) :
    htell (hpeek f n).2 = htell f ∧
    htell (hpeekSeq f ms) = htell f ∧
    (hreadMany (hpeek f n).2 ns).1.take (hpeek f n).1.length = (hpeek f n).1 := by
  refine ⟨htell_hpeek f n, htell_hpeekSeq ms f, ?_⟩
  rw [hpeek_bytes_length] at h
  rw [hreadMany_bytes, content_hpeek, hpeek_bytes_length, hpeek_bytes,
      List.take_take]
  congr 1
  omega

/-- Witness for C5 at a concrete stream: peeking 3 of a 5-byte stream
with capacity 4, then reading in sizes 2+2, returns the peeked bytes
first. -/
theorem C5_peek_idempotent_witness :
    (hpeek (hopenRead [1, 2, 3, 4, 5] 4) 3).1.length ≤ ([2, 2] : List Nat).sum ∧
    (htell (hpeek (hopenRead [1, 2, 3, 4, 5] 4) 3).2 = htell (hopenRead [1, 2, 3, 4, 5] 4) ∧
     htell (hpeekSeq (hopenRead [1, 2, 3, 4, 5] 4) [1, 4]) = htell (hopenRead [1, 2, 3, 4, 5] 4) ∧
     (hreadMany (hpeek (hopenRead [1, 2, 3, 4, 5] 4) 3).2 [2, 2]).1.take
         (hpeek (hopenRead [1, 2, 3, 4, 5] 4) 3).1.length =
       (hpeek (hopenRead [1, 2, 3, 4, 5] 4) 3).1) :=
  ⟨by decide, C5_peek_idempotent (hopenRead [1, 2, 3, 4, 5] 4) 3 [1, 4] [2, 2] (by decide)⟩

set_option maxRecDepth 100000 in
/-- C6: for any input `F` and any sequence of `hread` sizes totalling at
least `|F|`, the concatenated results are exactly `F`; and writing the
256 byte values 0..255 with `hputc`, closing, and reading back with
`hgetc` yields each value at its own position followed by EOF at
position 256. -/
theorem C6_roundtrip (F : List Nat) (cap : Nat) (ns : List Nat)
    (h : F.length ≤ ns.sum) :
    (hreadMany (hopenRead F cap) ns).1 = F ∧
    hcloseW (hputcAllW (hopenWrite 32768) (List.range 256)) = List.range 256 ∧
    (hgetcMany (hopenRead (hcloseW (hputcAllW (hopenWrite 32768) (List.range 256))) 32768)
        257).1 = (List.range 256).map some ++ [none] := by
  refine ⟨?_, by decide, by decide⟩
  rw [hreadMany_bytes]
  exact List.take_of_length_le h

/-- Witness for C6 at a concrete input: reading [7, 8, 9] in sizes 2+2
returns it whole. -/
theorem C6_roundtrip_witness :
    ([7, 8, 9] : List Nat).length ≤ ([2, 2] : List Nat).sum ∧
    (hreadMany (hopenRead [7, 8, 9] 16) [2, 2]).1 = [7, 8, 9] :=
  ⟨by decide, (C6_roundtrip [7, 8, 9] 16 [2, 2] (by decide)).1⟩

/-- C7: after closing a `mem:` stream written with an arbitrary sequence
of writes, the caller's buffer starts with exactly the written bytes and
the returned length is the final written size, whereas during writing
the length cell holds the allocated capacity, which is at least the
data size. -/
theorem C7_mem_close (ws : List (List Nat)) :
    (memClose (memWriteAll memInit ws)).1.take (memClose (memWriteAll memInit ws)).2 =
      ws.flatten ∧
    (memClose (memWriteAll memInit ws)).2 = ws.flatten.length ∧
    (memWriteAll memInit ws).data.length ≤ (memWriteAll memInit ws).cap := by
  have hdata : (memWriteAll memInit ws).data = ws.flatten := by
    rw [memWriteAll_data]; rfl
  have hcap : (memWriteAll memInit ws).data.length ≤ (memWriteAll memInit ws).cap :=
    memWriteAll_cap_ge ws memInit (by simp [memInit])
  refine ⟨?_, by simp [memClose, hdata], hcap⟩
  simp only [memClose, memBuffer, hdata]
  exact List.take_left _ _

/-- C4 counterexample: response code 416 gets no range-not-satisfiable
/ EOF treatment.  Reading a 10-byte resource at offset 10 (the mock
server answers 416, as the requested offset equals the stream length)
makes the implicit open fail with status -4 and errno EINVAL - an
error, not the EOF (0) the claim prescribes for this case. -/
theorem C4_cex_416_is_einval_error :
    (curlstream_read { ofs := 10, stm := none } 1
        (serverTrace (List.range 10) 10 none) [] 0).1 = -4 ∧
    (curlstream_read { ofs := 10, stm := none } 1
        (serverTrace (List.range 10) 10 none) [] 0).2.2.2 = EINVAL ∧
    serverCode (some 10) (List.range 10).length = 416 := by decide

/-- C4 amended: a failed open maps 401/407 to EPERM, 403 to EACCES,
404/410 to ENOENT, 408/504 to ETIMEDOUT, 503 to EAGAIN, every other
4xx - 416 included - to EINVAL, and all remaining codes to EIO; 416 is
never treated as EOF: a read whose implicit open is answered 416 at an
offset equal to the stream length returns a negative status. -/
theorem C4_errno_mapping :
    (open_errno 401 = EPERM ∧ open_errno 407 = EPERM) ∧
    open_errno 403 = EACCES ∧
    (open_errno 404 = ENOENT ∧ open_errno 410 = ENOENT) ∧
    (open_errno 408 = ETIMEDOUT ∧ open_errno 504 = ETIMEDOUT) ∧
    open_errno 503 = EAGAIN ∧
    (∀ ret : Int, ret ≠ 401 → ret ≠ 403 → ret ≠ 404 → ret ≠ 407 → ret ≠ 408 →
      ret ≠ 410 → 400 ≤ ret → ret < 500 → open_errno ret = EINVAL) ∧
    (∀ ret : Int, ¬(400 ≤ ret ∧ ret < 500) → ret ≠ 503 → ret ≠ 504 →
      open_errno ret = EIO) ∧
    open_errno 416 = EINVAL ∧
    (curlstream_read { ofs := 10, stm := none } 1
        (serverTrace (List.range 10) 10 none) [] 0).1 < 0 := by
  refine ⟨⟨rfl, rfl⟩, rfl, ⟨rfl, rfl⟩, ⟨rfl, rfl⟩, rfl, ?_, ?_, rfl, by decide⟩
  · intro ret h401 h403 h404 h407 h408 h410 hlo hhi
    have h503 : ¬(ret = 503) := by omega
    have h504 : ¬(ret = 504) := by omega
    unfold open_errno
    rw [if_neg h401, if_neg h403, if_neg h404, if_neg h407, if_neg h408,
        if_neg h410, if_neg h503, if_neg h504, if_pos ⟨hlo, hhi⟩]
  · intro ret hr h503 h504
    have h401 : ¬(ret = 401) := by omega
    have h403 : ¬(ret = 403) := by omega
    have h404 : ¬(ret = 404) := by omega
    have h407 : ¬(ret = 407) := by omega
    have h408 : ¬(ret = 408) := by omega
    have h410 : ¬(ret = 410) := by omega
    unfold open_errno
    rw [if_neg h401, if_neg h403, if_neg h404, if_neg h407, if_neg h408,
        if_neg h410, if_neg h503, if_neg h504, if_neg hr]

/-- Witness for C4 at concrete codes: 402 (an unlisted 4xx) maps to
EINVAL and 600 (unknown) maps to EIO. -/
theorem C4_errno_mapping_witness :
    open_errno 402 = EINVAL ∧ open_errno 600 = EIO :=
  ⟨C4_errno_mapping.2.2.2.2.2.1 402 (by decide) (by decide) (by decide) (by decide)
      (by decide) (by decide) (by decide) (by decide),
   C4_errno_mapping.2.2.2.2.2.2.1 600 (by decide) (by decide) (by decide)⟩

/-- C8 counterexample: `curlstream_read` does not set errno to EIO on
every nonzero return.  With no live session and the reopen answered
404, it returns -4 while errno holds open_helper's mapping ENOENT. -/
theorem C8_cex_reopen_errno_not_eio :
    (curlstream_read { ofs := 0, stm := none } 1
        [PEvent.progress 404 [] (some CURLE_OK)] [] 0).1 = -4 ∧
    (curlstream_read { ofs := 0, stm := none } 1
        [PEvent.progress 404 [] (some CURLE_OK)] [] 0).2.2.2 = ENOENT ∧
    ENOENT ≠ EIO := by decide

/-- C8 amended: on the live-session path, any nonzero return from
`CurlStream::read` - positive byte counts included - overwrites errno
with EIO (never EPIPE), and only a return of exactly 0 leaves errno
untouched; but when the implicit reopen fails, `curlstream_read`
returns the open status with errno as the open error mapping set it. -/
theorem C8_read_errno :
    (∀ (b : Box) (s : CState) (n : Nat) (pe : List PEvent) (be : List Bool) (e : Int),
      b.stm = some s →
      ((curlstream_read b n pe be e).1 ≠ 0 →
        (curlstream_read b n pe be e).2.2.2 = EIO) ∧
      ((curlstream_read b n pe be e).1 = 0 →
        (curlstream_read b n pe be e).2.2.2 = e)) ∧
    (∀ (b : Box) (n : Nat) (pe : List PEvent) (be : List Bool) (e : Int),
      b.stm = none → (open_helper b pe be e).1 ≠ 0 →
      curlstream_read b n pe be e =
        ((open_helper b pe be e).1, [], (open_helper b pe be e).2.1,
         (open_helper b pe be e).2.2)) := by
  constructor
  · intro b s n pe be e hstm
    simp only [curlstream_read, hstm]
    constructor
    · intro h
      simp_all
    · intro h
      simp_all
  · intro b n pe be e hstm h
    simp only [curlstream_read, hstm]
    rw [if_pos h]

/-- Witness for C8 at concrete inputs: a read on a live dead-handle
session returns -2 with errno EIO, and a read whose reopen is answered
404 returns open_helper's result with errno ENOENT. -/
theorem C8_read_errno_witness :
    (((curlstream_read { ofs := 0, stm := some (initCState [] []) } 1 [] [] 0).1 ≠ 0 →
      (curlstream_read { ofs := 0, stm := some (initCState [] []) } 1 [] [] 0).2.2.2 = EIO) ∧
     ((curlstream_read { ofs := 0, stm := some (initCState [] []) } 1 [] [] 0).1 = 0 →
      (curlstream_read { ofs := 0, stm := some (initCState [] []) } 1 [] [] 0).2.2.2 = 0)) ∧
    curlstream_read { ofs := 0, stm := none } 1
        [PEvent.progress 404 [] (some CURLE_OK)] [] 0 =
      ((open_helper { ofs := 0, stm := none }
          [PEvent.progress 404 [] (some CURLE_OK)] [] 0).1, [],
       (open_helper { ofs := 0, stm := none }
          [PEvent.progress 404 [] (some CURLE_OK)] [] 0).2.1,
       (open_helper { ofs := 0, stm := none }
          [PEvent.progress 404 [] (some CURLE_OK)] [] 0).2.2) :=
  ⟨C8_read_errno.1 { ofs := 0, stm := some (initCState [] []) }
      (initCState [] []) 1 [] [] 0 rfl,
   C8_read_errno.2 { ofs := 0, stm := none } 1
      [PEvent.progress 404 [] (some CURLE_OK)] [] 0 rfl (by decide)⟩

/-- C9 counterexample: a negative return from `CurlStream::read` is not
always latched.  After a successful open, a transient
`curl_multi_perform` failure makes `read` return -1, yet the next
`read` on the same object performs further transport activity and
returns 1, delivering a byte. -/
theorem C9_cex_error_not_latched :
    (curlOpen 0 (initCState [PEvent.progress 200 [] none, PEvent.mperformErr,
        PEvent.progress 200 [[7]] (some CURLE_OK)] [])).1 = 0 ∧
    (curlRead (curlOpen 0 (initCState [PEvent.progress 200 [] none, PEvent.mperformErr,
        PEvent.progress 200 [[7]] (some CURLE_OK)] [])).2 1).1 = -1 ∧
    (curlRead (curlRead (curlOpen 0 (initCState [PEvent.progress 200 [] none,
        PEvent.mperformErr,
        PEvent.progress 200 [[7]] (some CURLE_OK)] [])).2 1).2.2 1).1 = 1 ∧
    (curlRead (curlRead (curlOpen 0 (initCState [PEvent.progress 200 [] none,
        PEvent.mperformErr,
        PEvent.progress 200 [[7]] (some CURLE_OK)] [])).2 1).2.2 1).2.1 = [7] := by
  decide

/-- C9 amended: once `final_read_rc_` has been latched to 0 or negative
(a read that consumed the transfer's final status, or an open that
recorded a failed transfer), every subsequent `CurlStream::read`
immediately returns that identical value with the state - transport
events included - unchanged and no bytes delivered; a negative return
from a transient perform/select failure is not latched. -/
theorem C9_final_rc_latched (s : CState) (n : Nat) (h : s.finalReadRc ≤ 0) :
    curlRead s n = (s.finalReadRc, [], s) := by
  unfold curlRead
  rw [if_pos h]

/-- The mock server's trace for a full-resource request truncated at
`t < |F|`: headers first (code 200), then the truncated body and the
partial-file transfer result. -/
lemma trunc_trace (F : List Nat) (t : Nat) (ht : t < F.length) :
    serverTrace F 0 (some t) =
      [PEvent.progress 200 [] none,
       PEvent.progress 200 [F.take t] (some CURLE_PARTIAL_FILE)] := by
  have hlen : (F.take t).length = t := by
    rw [List.length_take]; omega
  simp [serverTrace, serverCode, serverBody, transferResult, hlen, ht,
        CURLE_PARTIAL_FILE, CURLE_OK]

/-- Opening against that trace succeeds after the header event, leaving
the body event pending. -/
lemma trunc_open (F : List Nat) (t : Nat) :
    curlstream_open 0
      [PEvent.progress 200 [] none,
       PEvent.progress 200 [F.take t] (some CURLE_PARTIAL_FILE)] [] 0 =
    (0,
     some { ofs := 0
          , stm := some { hPresent := true, mPresent := true, responseCode := 200
                        , fifo := [], finalMsg := none, finalReadRc := 1
                        , rangeStart := none
                        , pevents := [PEvent.progress 200 [F.take t]
                                        (some CURLE_PARTIAL_FILE)]
                        , bevents := [] } },
     0) := by
  simp [curlstream_open, open_helper, curlOpen, openWait, openLoop, openFinish,
        performFn, initCState, fifoWriteAll, finalStatus]

/-- The first read on the opened session consumes the body event and
delivers the `t` bytes that arrived before the truncation; the C
wrapper sets errno to EIO even on this successful read. -/
lemma trunc_read_first (F : List Nat) (t : Nat) (ht : t < F.length) (htpos : 0 < t) :
    curlstream_read
      { ofs := 0
      , stm := some { hPresent := true, mPresent := true, responseCode := 200
                    , fifo := [], finalMsg := none, finalReadRc := 1
                    , rangeStart := none
                    , pevents := [PEvent.progress 200 [F.take t]
                                    (some CURLE_PARTIAL_FILE)]
                    , bevents := [] } }
      F.length [] [] 0 =
    ((t : Int), F.take t,
     { ofs := 0
     , stm := some { hPresent := true, mPresent := true, responseCode := 200
                   , fifo := [], finalMsg := some CURLE_PARTIAL_FILE
                   , finalReadRc := 1, rangeStart := none
                   , pevents := [], bevents := [] } },
     EIO) := by
  have hlen : (F.take t).length = t := by
    rw [List.length_take]; omega
  have hF0 : ¬(F.length = 0) := by omega
  have hmin : min (F.take t).length F.length = t := by
    rw [hlen]; omega
  have htake : (F.take t).take (min (F.take t).length F.length) = F.take t := by
    rw [hmin, List.take_take]
    congr 1
    omega
  have hdrop : (F.take t).drop (min (F.take t).length F.length) = [] := by
    rw [hmin]
    exact List.drop_eq_nil_of_le (by omega)
  simp [curlstream_read, curlRead, readFill, readLoop, readDeliver, performFn,
        fifoWriteAll, fifoWrite, fifoReadsome, finalStatus, hlen, hF0, hmin,
        htake, hdrop, htpos, Nat.pos_iff_ne_zero.mp htpos, CURLE_PARTIAL_FILE]
  refine ⟨by omega, fun hc => ?_⟩
  exfalso
  omega

/-- Any further read on the terminated session consumes the final
partial-file status: it latches `final_read_rc_ = -1` and returns -1
with errno EIO.  No new session is opened (`stm` stays installed and
the recorded offset is untouched), whatever `n` and errno are. -/
lemma trunc_read_dead (n : Nat) (e : Int) :
    curlstream_read
      { ofs := 0
      , stm := some { hPresent := true, mPresent := true, responseCode := 200
                    , fifo := [], finalMsg := some CURLE_PARTIAL_FILE
                    , finalReadRc := 1, rangeStart := none
                    , pevents := [], bevents := [] } }
      n [] [] e =
    (-1, [],
     { ofs := 0
     , stm := some { hPresent := true, mPresent := true, responseCode := 200
                   , fifo := [], finalMsg := some CURLE_PARTIAL_FILE
                   , finalReadRc := -1, rangeStart := none
                   , pevents := [], bevents := [] } },
     EIO) := by
  simp [curlstream_read, curlRead, readFill, readLoop, readDeliver, performFn,
        fifoWriteAll, fifoWrite, fifoReadsome, finalStatus, CURLE_PARTIAL_FILE,
        CURLE_OK]

/-- C1 counterexample: resumption does not happen.  Serving the 4-byte
resource [10,20,30,40] with the response truncated after 2 bytes, a
caller who opens and reads until EOF receives only [10,20] and then the
error -1 (errno EIO) - not the original 4 bytes with no error - and no
new ranged session is ever opened: the box still holds the dead session
and its offset 0. -/
theorem C1_cex_truncation_surfaces_error :
    (curlstream_open 0 (serverTrace [10, 20, 30, 40] 0 (some 2)) [] 0).1 = 0 ∧
    (drainRead 4 [] [] 6
        ((curlstream_open 0 (serverTrace [10, 20, 30, 40] 0 (some 2)) [] 0).2.1.getD
          { ofs := 0, stm := none }) 0).1 = [10, 20] ∧
    (drainRead 4 [] [] 6
        ((curlstream_open 0 (serverTrace [10, 20, 30, 40] 0 (some 2)) [] 0).2.1.getD
          { ofs := 0, stm := none }) 0).2.1 = -1 ∧
    (drainRead 4 [] [] 6
        ((curlstream_open 0 (serverTrace [10, 20, 30, 40] 0 (some 2)) [] 0).2.1.getD
          { ofs := 0, stm := none }) 0).2.2.2 = EIO ∧
    (drainRead 4 [] [] 6
        ((curlstream_open 0 (serverTrace [10, 20, 30, 40] 0 (some 2)) [] 0).2.1.getD
          { ofs := 0, stm := none }) 0).2.2.1.ofs = 0 ∧
    (drainRead 4 [] [] 6
        ((curlstream_open 0 (serverTrace [10, 20, 30, 40] 0 (some 2)) [] 0).2.1.getD
          { ofs := 0, stm := none }) 0).2.2.1.stm ≠ none ∧
    ([10, 20] : List Nat) ≠ [10, 20, 30, 40] := by decide

/-- C1 amended: for every resource `F` and truncation point `t < |F|`
applied to the (full-resource) response, a caller reading until EOF
through the HTTP backend receives exactly the `t` bytes delivered
before the truncation and then the error -1 with errno EIO; the backend
performs no automatic re-open - the box keeps offset 0 and the dead
session (whose `final_read_rc_` is latched to -1 and which never sent a
range header), so recovery happens only if the caller itself seeks or
reopens. -/
theorem C1_truncation_no_resume (F : List Nat) (t : Nat) (ht : t < F.length) :
    serverTrace F 0 (some t) =
      [PEvent.progress 200 [] none,
       PEvent.progress 200 [F.take t] (some CURLE_PARTIAL_FILE)] ∧
    (curlstream_open 0 (serverTrace F 0 (some t)) [] 0).1 = 0 ∧
    drainRead F.length [] [] 3
      ((curlstream_open 0 (serverTrace F 0 (some t)) [] 0).2.1.getD
        { ofs := 0, stm := none }) 0 =
      (F.take t, -1,
       { ofs := 0
       , stm := some { hPresent := true, mPresent := true, responseCode := 200
                     , fifo := [], finalMsg := some CURLE_PARTIAL_FILE
                     , finalReadRc := -1, rangeStart := none
                     , pevents := [], bevents := [] } },
       EIO) := by
  have hserver := trunc_trace F t ht
  have hopen := trunc_open F t
  rw [hserver, hopen]
  refine ⟨rfl, rfl, ?_⟩
  simp only [Option.getD_some]
  by_cases ht0 : t = 0
  · subst ht0
    simp [drainRead, curlstream_read, curlRead, readFill, readLoop, readDeliver,
          performFn, fifoWriteAll, fifoWrite, fifoReadsome, finalStatus,
          CURLE_PARTIAL_FILE, CURLE_OK]
  · have htpos : 0 < t := Nat.pos_of_ne_zero ht0
    simp only [drainRead]
    rw [trunc_read_first F t ht htpos]
    dsimp only
    rw [if_pos (by exact_mod_cast htpos)]
    rw [trunc_read_dead F.length EIO]
    dsimp only
    rw [if_neg (by norm_num)]
    simp

/-- Witness for C1 (amended) at a concrete resource: [10,20,30,40]
truncated at 3. -/
theorem C1_truncation_no_resume_witness :
    serverTrace [10, 20, 30, 40] 0 (some 3) =
      [PEvent.progress 200 [] none,
       PEvent.progress 200 [[10, 20, 30]] (some CURLE_PARTIAL_FILE)] ∧
    (curlstream_open 0 (serverTrace [10, 20, 30, 40] 0 (some 3)) [] 0).1 = 0 ∧
    drainRead 4 [] [] 3
      ((curlstream_open 0 (serverTrace [10, 20, 30, 40] 0 (some 3)) [] 0).2.1.getD
        { ofs := 0, stm := none }) 0 =
      ([10, 20, 30], -1,
       { ofs := 0
       , stm := some { hPresent := true, mPresent := true, responseCode := 200
                     , fifo := [], finalMsg := some CURLE_PARTIAL_FILE
                     , finalReadRc := -1, rangeStart := none
                     , pevents := [], bevents := [] } },
       EIO) :=
  C1_truncation_no_resume [10, 20, 30, 40] 3 (by decide)

/-- Witness for C9 at a concrete latched state. -/
theorem C9_final_rc_latched_witness :
    curlRead { hPresent := true, mPresent := true, responseCode := 200, fifo := []
             , finalMsg := some 18, finalReadRc := -1, rangeStart := none
             , pevents := [], bevents := [] } 3 =
      (-1, [],
       { hPresent := true, mPresent := true, responseCode := 200, fifo := []
       , finalMsg := some 18, finalReadRc := -1, rangeStart := none
       , pevents := [], bevents := [] }) :=
  C9_final_rc_latched _ 3 (by decide)

end Hts
